import Mathlib

/-!
Verification of the TravelAgencyBE orchestration core against its
natural-language specification.

The definitions below are a shallow embedding of the Python source:

* `src/src/agents/graph.py` — router state, `route_logic`, the agent
  runner nodes, `combine_results`, and the `AGENTS` capability table;
* `src/src/agents/weather_agent.py` — the `get_weather` tool;
* `src/src/agents/form_agent.py` — `extract_form_data` (merge policy and
  completed-field recomputation), `is_form_complete`, `should_continue`,
  `llm_call`, and the per-turn flow of `build_form_graph`.

Python dictionaries are embedded as insertion-ordered association lists
(assignment of a fresh key appends; assignment of a present key replaces
in place).  External collaborators (the completion service, `requests`,
`json.loads`, `dateutil`, `strftime`, `str.title`) are parameters of the
functions that call them; a call that can raise is modelled as returning
`Except String α`, with the error value standing for the raised exception.
-/

set_option autoImplicit false

namespace TravelAgency


/-- Looks a key up in an insertion-ordered association list (Python
`d[k]` / `d.get(k)` on the lists we use to model `dict`). -/
def dlookup {α : Type} (k : String) : List (String × α) → Option α
  | [] => none
  | (k2, v) :: rest => if k2 = k then some v else dlookup k rest

/-- Python `k in d` on a modelled dict. -/
def keyIn {α : Type} (k : String) (d : List (String × α)) : Bool :=
  (dlookup k d).isSome

/-- Replaces every entry for key `k` by `(k, v)`, keeping its position
(on our dicts a key occurs at most once). -/
def replaceEntry {α : Type} (k : String) (v : α) : List (String × α) → List (String × α)
  | [] => []
  | (k1, v1) :: t =>
    if k1 = k then (k, v) :: replaceEntry k v t else (k1, v1) :: replaceEntry k v t

/-- Python `d[k] = v`: replaces in place when the key is present,
appends when it is fresh (insertion order of a Python dict). -/
def dictSet {α : Type} (d : List (String × α)) (k : String) (v : α) :
    List (String × α) :=
  if keyIn k d then replaceEntry k v d else d ++ [(k, v)]

/-- Python `list(d.values())` on a modelled dict. -/
def dictValues {α : Type} (d : List (String × α)) : List α :=
  d.map Prod.snd

/-- Results of the specialized agents, keyed by capability name
(`results: dict[str, str]` in `RouterState`). -/
abbrev StrDict := List (String × String)

/-! ### The router graph (`src/src/agents/graph.py`) -/

/-- The agent-description table `AGENTS` of `graph.py`: the known
capability set of the router graph. -/
def AGENTS : List (String × String) :=
  [("weather", "for weather forecasts or destinations"),
   ("exchange", "for currency or travel money queries"),
   ("form", "for creating and collecting travel booking information")]

/-- The Dispatch Loop decision function `route_logic` of
`_build_router_graph`: scans `routes` in order and returns the first
name that is not yet a key of `results`; when every name is present (or
`routes` is empty) it returns the `"combine_results"` node. -/
def route_logic (routes : List String) (results : StrDict) : String :=
  match routes with
  | [] => "combine_results"
  | r :: rest => if keyIn r results then route_logic rest results else r

/-- Outcome of one conditional-edge evaluation of the compiled graph:
move to the combine node, run a registered agent node (recording its
result), or name a node that does not exist in the graph. -/
inductive DispatchStep where
  | toCombine
  | ran (results : StrDict)
  | invalidNode (name : String)
deriving DecidableEq

/-- One step of the dispatch loop: evaluate `route_logic` and, when it
names a registered agent node, execute it and record its output under
its own name (`exec` gives the recorded text). -/
def dispatch_step (exec : String → String) (routes : List String)
    (results : StrDict) : DispatchStep :=
  let d := route_logic routes results
  if d = "combine_results" then DispatchStep.toCombine
  else if keyIn d AGENTS then DispatchStep.ran (dictSet results d (exec d))
  else DispatchStep.invalidNode d

/-- `n` dispatch steps from `results`; stops early at the combine step
or at an unregistered node name. -/
def dispatch_iter (exec : String → String) (routes : List String) :
    Nat → StrDict → StrDict
  | 0, results => results
  | n + 1, results =>
    match dispatch_step exec routes results with
    | DispatchStep.ran results2 => dispatch_iter exec routes n results2
    | _ => results

/-- The distinct route names not yet recorded in `results`
(`len(set(routes))` bookkeeping for the progress guarantee). -/
def distinct_missing (routes : List String) (results : StrDict) : List String :=
  routes.dedup.filter (fun r => !keyIn r results)

/-! ### Router state, runner nodes and combiner (`graph.py`) -/

/-- Role of a conversation message (LangChain `HumanMessage` /
`AIMessage`). -/
inductive Role where
  | human
  | ai
deriving DecidableEq

/-- A role-tagged conversation message. -/
structure Msg where
  role : Role
  content : String
deriving DecidableEq

/-- `RouterState` of `graph.py`: `messages` (reducer `operator.add`,
append-only), `routes` (capability names chosen by the router) and
`results` (agent outputs keyed by capability name). -/
structure RouterState where
  messages : List Msg
  routes : List String
  results : StrDict
deriving DecidableEq

/-- `combine_results` of `graph.py`, with the completion service as the
parameter `llm` (from the content of the single `HumanMessage` of the
call to the model reply).  Returns the content of the emitted
`AIMessage` together with the number of completion-service calls issued:
the source builds `combined_text` (the fixed no-information message when
`results` is empty, otherwise the values joined with a blank line) and
then invokes the model unconditionally. -/
def combine_results (llm : String → String) (results : StrDict) : String × Nat :=
  let texts := dictValues results
  let combined_text :=
    if texts.isEmpty then "No relevant information found."
    else String.intercalate "\n\n" texts
  (llm combined_text, 1)

/-- `run_weather` of `graph.py`: reads the last message, invokes the
weather agent (uncaught — the node has no try/except), and records the
result under `"weather"`.  The compiled graph applies the returned
partial update: `messages` and `routes` unchanged, `results` replaced by
the mutated dict. -/
def run_weather (weatherAgent : String → Except String String)
    (state : RouterState) : Except String RouterState :=
  match state.messages.getLast? with
  | none => Except.error "IndexError: list index out of range"
  | some m =>
    match weatherAgent m.content with
    | Except.error e => Except.error e
    | Except.ok result =>
      Except.ok { state with results := dictSet state.results "weather" result }

/-- `run_exchange` of `graph.py` (same shape as `run_weather`). -/
def run_exchange (exchangeAgent : String → Except String String)
    (state : RouterState) : Except String RouterState :=
  match state.messages.getLast? with
  | none => Except.error "IndexError: list index out of range"
  | some m =>
    match exchangeAgent m.content with
    | Except.error e => Except.error e
    | Except.ok result =>
      Except.ok { state with results := dictSet state.results "exchange" result }

/-- `run_form` of `graph.py`: invokes the form agent and records
`result.get("response", "")` under `"form"`. -/
def run_form (formAgent : String → Except String (List (String × String)))
    (state : RouterState) : Except String RouterState :=
  match state.messages.getLast? with
  | none => Except.error "IndexError: list index out of range"
  | some m =>
    match formAgent m.content with
    | Except.error e => Except.error e
    | Except.ok result =>
      Except.ok { state with
        results := dictSet state.results "form" ((dlookup "response" result).getD "") }

/-! ### The weather tool (`src/src/agents/weather_agent.py`) -/

/-- The `daily` block of the forecast response: the three arrays the
tool reads.  A missing `temperature_2m_max`/`temperature_2m_min` key is
the empty list (both are falsy in the source check);
`precipitation_probability_mean = none` models a response without that
key (the source then defaults to `[None]`). -/
structure ForecastDaily where
  temperature_2m_max : List Int
  temperature_2m_min : List Int
  precipitation_probability_mean : Option (List (Option Int))
deriving DecidableEq

/-- External collaborators of `get_weather`.  `geoFetch` models the
geocoding GET and its `.json()`: `Except.error` is a raised `requests`
exception, `ok none` a body without a `results` key, `ok (some hits)`
the `results` list as `(latitude, longitude)` pairs.  `forecastFetch`
models the forecast GET (`ok none` = missing or empty `daily` block).
`dateutilParse` models `dateutil.parser.parse(..., fuzzy=True).date()`
(`none` = raise); `dayStr` models `strftime("%Y-%m-%d")` on day
ordinals; `titleCase` models `str.title`. -/
structure WeatherWorld where
  geoFetch : String → Except String (Option (List (Int × Int)))
  forecastFetch : Int → Int → String → Except String (Option ForecastDaily)
  dateutilParse : String → Option Nat
  dayStr : Nat → String
  titleCase : String → String

/-- Decimal digits accumulated into a number (`int(...)` on the regex
group). -/
def digitsToNat (ds : List Char) : Nat :=
  ds.foldl (fun n c => n * 10 + (c.toNat - 48)) 0

/-- The anchored match `re.match(r"in (\d+) days?", date)`: the text
starts with `in `, one or more digits, then ` day`; the optional `s` and
any trailing characters are unconstrained by `re.match`. -/
def parseInDays (s : String) : Option Nat :=
  match s.toList with
  | 'i' :: 'n' :: ' ' :: rest =>
    let ds := rest.takeWhile Char.isDigit
    let rest2 := rest.dropWhile Char.isDigit
    if ds.isEmpty then none
    else
      match rest2 with
      | ' ' :: 'd' :: 'a' :: 'y' :: _ => some (digitsToNat ds)
      | _ => none
  | _ => none

/-- Result of step 1 of `get_weather` (date parsing): a target day
ordinal, or the early "invalid date" return. -/
inductive DateParse where
  | target (d : Nat)
  | invalid
deriving DecidableEq

/-- Step 1 of `get_weather` on the trimmed, lowercased date text:
`today`, `tomorrow`, the `in N days` pattern, then `dateutil` with its
own inner try/except. -/
def parseWeatherDate (dateutilParse : String → Option Nat) (today : Nat)
    (d : String) : DateParse :=
  if d = "today" then DateParse.target today
  else if d = "tomorrow" then DateParse.target (today + 1)
  else
    match parseInDays d with
    | some n => DateParse.target (today + n)
    | none =>
      match dateutilParse d with
      | some t => DateParse.target t
      | none => DateParse.invalid

/-- Python `list[0]`: raises `IndexError` on an empty list. -/
def pyIndex0 {α : Type} : List α → Except String α
  | [] => Except.error "IndexError: list index out of range"
  | a :: _ => Except.ok a

/-- Python `s.strip().lower()`: drops surrounding whitespace, then
lowercases. -/
def py_strip_lower (s : String) : String :=
  String.mk (((s.toList.dropWhile Char.isWhitespace).reverse.dropWhile
    Char.isWhitespace).reverse.map Char.toLower)

/-- The body of `get_weather` inside its `try:`.  `Except.error` is an
exception flying toward the catch-all handler; `Except.ok` is an
ordinary `return` (the early returns for invalid date, unknown city and
missing forecast data are ordinary returns, not exceptions). -/
def get_weather_body (w : WeatherWorld) (today : Nat) (city date : String) :
    Except String String :=
  let d := py_strip_lower date
  match parseWeatherDate w.dateutilParse today d with
  | DateParse.invalid =>
    Except.ok "Please provide a valid date or phrase like 'tomorrow' or 'next Monday'."
  | DateParse.target targetDate =>
    match w.geoFetch city with
    | Except.error e => Except.error e
    | Except.ok none => Except.ok ("Could not find location for city '" ++ city ++ "'.")
    | Except.ok (some []) =>
      Except.ok ("Could not find location for city '" ++ city ++ "'.")
    | Except.ok (some ((lat, lon) :: _)) =>
      let dateStr := w.dayStr targetDate
      match w.forecastFetch lat lon dateStr with
      | Except.error e => Except.error e
      | Except.ok none =>
        Except.ok ("No forecast data available for " ++ city ++ " on " ++ dateStr ++ ".")
      | Except.ok (some daily) =>
        if daily.temperature_2m_max.isEmpty then
          Except.ok ("No forecast data available for " ++ city ++ " on " ++ dateStr ++ ".")
        else
          match pyIndex0 daily.temperature_2m_max with
          | Except.error e => Except.error e
          | Except.ok maxTemp =>
            match pyIndex0 daily.temperature_2m_min with
            | Except.error e => Except.error e
            | Except.ok minTemp =>
              match pyIndex0 (daily.precipitation_probability_mean.getD [none]) with
              | Except.error e => Except.error e
              | Except.ok rainProb =>
                let msg := "Weather forecast for " ++ w.titleCase city ++ " on "
                  ++ dateStr ++ ": " ++ toString minTemp ++ "°C to "
                  ++ toString maxTemp ++ "°C"
                Except.ok (match rainProb with
                  | some p => msg ++ ", with a " ++ toString p ++ "% chance of rain."
                  | none => msg)

/-- `get_weather` of `weather_agent.py`: the whole body runs inside
`try: ... except Exception as e`, so the tool always returns a string —
every exception raised inside the body is converted to a human-readable
error string at the tool boundary. -/
def get_weather (w : WeatherWorld) (today : Nat) (city date : String) : String :=
  match get_weather_body w today city date with
  | Except.ok s => s
  | Except.error e => "Could not fetch weather: " ++ e

/-- A weather world whose geocoding finds nothing. -/
def weatherWorldNoHit : WeatherWorld :=
  { geoFetch := fun _ => Except.ok none
    forecastFetch := fun _ _ _ => Except.ok none
    dateutilParse := fun _ => some 5
    dayStr := fun n => toString n
    titleCase := fun c => c }

/-- A weather world whose date parser always raises. -/
def weatherWorldBadDate : WeatherWorld :=
  { weatherWorldNoHit with dateutilParse := fun _ => none }

/-- A weather world whose geocoding request raises. -/
def weatherWorldGeoRaise : WeatherWorld :=
  { weatherWorldNoHit with geoFetch := fun _ => Except.error "ConnectionError" }

/-- A weather world with a geocoding hit but no forecast data. -/
def weatherWorldNoForecast : WeatherWorld :=
  { weatherWorldNoHit with geoFetch := fun _ => Except.ok (some [(10, 20)]) }

/-! ### The form agent (`src/src/agents/form_agent.py`) -/

/-- A JSON-like Python value, as produced by `json.loads` and stored in
`form_data`. -/
inductive JValue where
  | null
  | bool (b : Bool)
  | num (n : Int)
  | str (s : String)
  | arr (xs : List JValue)
  | obj (fields : List (String × JValue))

/-- Python truthiness of a JSON value. -/
def truthy : JValue → Bool
  | JValue.null => false
  | JValue.bool b => b
  | JValue.num n => decide (n ≠ 0)
  | JValue.str s => decide (s ≠ "")
  | JValue.arr xs => !xs.isEmpty
  | JValue.obj fs => !fs.isEmpty

/-- Python truthiness of `d.get(k)` (absent key → `None` → falsy). -/
def truthyOpt : Option JValue → Bool
  | none => false
  | some v => truthy v

/-- A `form_data` dict. -/
abbrev JDict := List (String × JValue)

/-- Python `dict.update`: sets each entry of `u` in `a`, in order
(`current_form["availability"].update(value)`). -/
def objUpdate (a u : JDict) : JDict :=
  u.foldl (fun acc kv => dictSet acc kv.1 kv.2) a

/-- `isinstance(value, dict)`. -/
def isObjB : JValue → Bool
  | JValue.obj _ => true
  | _ => false

/-- `isinstance(value, list)`. -/
def isArrB : JValue → Bool
  | JValue.arr _ => true
  | _ => false

/-- `len` on a list value (only ever used under an `isinstance` guard). -/
def arrLen : JValue → Nat
  | JValue.arr xs => xs.length
  | _ => 0

/-- Python `.get(k)` on a value that must be a dict: raises
`AttributeError` on any other value. -/
def pyGet (v : JValue) (k : String) : Except String (Option JValue) :=
  match v with
  | JValue.obj fs => Except.ok (dlookup k fs)
  | _ => Except.error "AttributeError"

/-- One iteration of the merge loop of `extract_form_data`: shallow-
update `availability` when the new value is a dict (creating the nested
dict if absent; `.update` raises `AttributeError` when the existing
value is not a dict), overwrite `destinationPreferences` when the new
value is a list, otherwise set the key only when the new value is
truthy. -/
def mergeOne (current : JDict) (k : String) (v : JValue) : Except String JDict :=
  if k = "availability" then
    match v with
    | JValue.obj u =>
      match dlookup "availability" current with
      | none =>
        Except.ok (dictSet current "availability" (JValue.obj (objUpdate [] u)))
      | some (JValue.obj a) =>
        Except.ok (dictSet current "availability" (JValue.obj (objUpdate a u)))
      | some _ => Except.error "AttributeError"
    | _ => if truthy v then Except.ok (dictSet current k v) else Except.ok current
  else if k = "destinationPreferences" then
    match v with
    | JValue.arr xs => Except.ok (dictSet current k (JValue.arr xs))
    | _ => if truthy v then Except.ok (dictSet current k v) else Except.ok current
  else if truthy v then Except.ok (dictSet current k v) else Except.ok current

/-- The merge loop over `extracted.items()`: returns the (possibly
partially) mutated dict together with whether the loop raised — the
surrounding `except` catches the raise but keeps the mutations made
before it. -/
def mergeItems (current : JDict) : List (String × JValue) → JDict × Bool
  | [] => (current, false)
  | (k, v) :: rest =>
    match mergeOne current k v with
    | Except.error _ => (current, true)
    | Except.ok current2 => mergeItems current2 rest

/-- `FormState` of `form_agent.py`. -/
structure FormState where
  messages : List Msg
  form_data : JDict
  completed_fields : List String

/-- The reversed scan for the latest human message. -/
def lastHumanMessage (msgs : List Msg) : Option String :=
  (msgs.reverse.find? (fun m => decide (m.role = Role.human))).map Msg.content

/-- The opening brace character. -/
def braceL : Char := Char.ofNat 123

/-- The closing brace character. -/
def braceR : Char := Char.ofNat 125

/-- The greedy DOTALL search for a brace-delimited blob in the raw
completion reply (`re.search` with pattern opening brace, `.*`, closing
brace): the match runs from the first opening brace to the last closing
brace, provided the latter comes after the former. -/
def findJsonBlob (s : String) : Option String :=
  let cs := s.toList
  match cs.findIdx? (fun c => c == braceL),
      cs.reverse.findIdx? (fun c => c == braceR) with
  | some i, some jr =>
    let j := cs.length - 1 - jr
    if i < j then some (String.mk ((cs.drop i).take (j - i + 1))) else none
  | _, _ => none

/-- The `completed_fields` recomputation at the end of
`extract_form_data`.  The `startDate`/`endDate` lookups call `.get` on
`current_form.get("availability", {})`, which raises `AttributeError`
when the stored value is not a dict — this code runs outside the
`try`. -/
def computeCompleted (fd : JDict) : Except String (List String) :=
  let l1 := if truthyOpt (dlookup "budget" fd) then ["budget"] else []
  let l2 := if truthyOpt (dlookup "typeOfHoliday" fd) then ["type of holiday"] else []
  let l3 := if truthyOpt (dlookup "travelGroup" fd) then ["travel group"] else []
  let avail := (dlookup "availability" fd).getD (JValue.obj [])
  match pyGet avail "startDate" with
  | Except.error e => Except.error e
  | Except.ok sd =>
    match pyGet avail "endDate" with
    | Except.error e => Except.error e
    | Except.ok ed =>
      let l4 := if truthyOpt sd then ["start date"] else []
      let l5 := if truthyOpt ed then ["end date"] else []
      let l6 := if truthyOpt (dlookup "destinationPreferences" fd)
        then ["destinations"] else []
      Except.ok (l1 ++ l2 ++ l3 ++ l4 ++ l5 ++ l6)

/-- `extract_form_data`, with `json.loads` as the parameter `parse`
(`none` = raise `JSONDecodeError`) and the extraction call's reply text
as `llmReply`.  Short-circuits (state unchanged) when there are fewer
than two messages or no human message; otherwise runs the
parse-and-merge `try` block — any raise inside it is caught, keeping the
mutations made before it — and then recomputes `completed_fields`,
which can itself raise (it runs after the `try`). -/
def extract_form_data (parse : String → Option JValue) (llmReply : String)
    (st : FormState) : Except String FormState :=
  if st.messages.length < 2 then Except.ok st
  else
    match lastHumanMessage st.messages with
    | none => Except.ok st
    | some _ =>
      let merged :=
        match findJsonBlob llmReply with
        | none => st.form_data
        | some blob =>
          match parse blob with
          | none => st.form_data
          | some (JValue.obj items) => (mergeItems st.form_data items).1
          | some _ => st.form_data
      match computeCompleted merged with
      | Except.error e => Except.error e
      | Except.ok completed =>
        Except.ok { st with form_data := merged, completed_fields := completed }

/-- `is_form_complete`: the three scalar fields must be truthy; the
`availability` value (default empty dict) must have truthy `startDate`
and `endDate` (`.get` raising `AttributeError` on a non-dict value); and
`destinationPreferences` (default `[]`) must be truthy and not an empty
list. -/
def is_form_complete (fd : JDict) : Except String Bool :=
  if !truthyOpt (dlookup "budget" fd) then Except.ok false
  else if !truthyOpt (dlookup "typeOfHoliday" fd) then Except.ok false
  else if !truthyOpt (dlookup "travelGroup" fd) then Except.ok false
  else
    let avail := (dlookup "availability" fd).getD (JValue.obj [])
    match pyGet avail "startDate" with
    | Except.error e => Except.error e
    | Except.ok sd =>
      if !truthyOpt sd then Except.ok false
      else
        match pyGet avail "endDate" with
        | Except.error e => Except.error e
        | Except.ok ed =>
          if !truthyOpt ed then Except.ok false
          else
            let ds := (dlookup "destinationPreferences" fd).getD (JValue.arr [])
            if !truthy ds || (isArrB ds && decide (arrLen ds = 0)) then Except.ok false
            else Except.ok true

/-- `should_continue` of `form_agent.py`: `END` (the internal label of
the graph framework) when the form is complete, otherwise the edge label
mapped to `llm_call`. -/
def should_continue (st : FormState) : Except String String :=
  match is_form_complete st.form_data with
  | Except.error e => Except.error e
  | Except.ok c => Except.ok (if c then "__end__" else "extract_and_ask")

/-- `llm_call` of `form_agent.py`, with the two possible completion
outputs as parameters: one thank-you reply when the form is complete,
otherwise one conversational question. -/
def llm_call (thankReply questionReply : String) (st : FormState) :
    Except String (List Msg) :=
  match is_form_complete st.form_data with
  | Except.error e => Except.error e
  | Except.ok c =>
    Except.ok (if c then [⟨Role.ai, thankReply⟩] else [⟨Role.ai, questionReply⟩])

/-- One turn of the compiled form graph (`build_form_graph`):
`START → extract_and_ask`, then `should_continue`; when it returns `END`
the run finishes with no further node, otherwise `llm_call` emits one
message, appended by the `operator.add` reducer. -/
def formTurn (parse : String → Option JValue)
    (llmReply thankReply questionReply : String) (st : FormState) :
    Except String FormState :=
  match extract_form_data parse llmReply st with
  | Except.error e => Except.error e
  | Except.ok st1 =>
    match should_continue st1 with
    | Except.error e => Except.error e
    | Except.ok lbl =>
      if lbl = "__end__" then Except.ok st1
      else
        match llm_call thankReply questionReply st1 with
        | Except.error e => Except.error e
        | Except.ok newMsgs =>
          Except.ok { st1 with messages := st1.messages ++ newMsgs }

/-- A completely filled `form_data` (the spec's form-completion boundary
scenario). -/
def completeFields : JDict :=
  [("budget", JValue.num 3000), ("typeOfHoliday", JValue.str "beach"),
   ("travelGroup", JValue.str "family"),
   ("availability", JValue.obj
     [("startDate", JValue.str "2025-06-01"), ("endDate", JValue.str "2025-06-15")]),
   ("destinationPreferences", JValue.arr [JValue.str "Bali"])]

/-- `completeFields` with the list-valued field replaced by a truthy
non-list value. -/
def fieldsDestStr : JDict :=
  [("budget", JValue.num 3000), ("typeOfHoliday", JValue.str "beach"),
   ("travelGroup", JValue.str "family"),
   ("availability", JValue.obj
     [("startDate", JValue.str "2025-06-01"), ("endDate", JValue.str "2025-06-15")]),
   ("destinationPreferences", JValue.str "Bali")]

/-- The completeness predicate as the claim words it: every plain scalar
field truthy, both date-range sub-keys populated, and the list-valued
field a non-empty list. -/
def claim_is_complete (fd : JDict) : Bool :=
  truthyOpt (dlookup "budget" fd) && truthyOpt (dlookup "typeOfHoliday" fd)
  && truthyOpt (dlookup "travelGroup" fd)
  && (match (dlookup "availability" fd).getD (JValue.obj []) with
      | JValue.obj a =>
        truthyOpt (dlookup "startDate" a) && truthyOpt (dlookup "endDate" a)
      | _ => false)
  && (match dlookup "destinationPreferences" fd with
      | some (JValue.arr xs) => !xs.isEmpty
      | _ => false)

/-- The completeness predicate as the code computes it, with the
list-valued clause weakened to Python truthiness: the value (default
`[]`) need only be truthy — a non-empty list, or any other truthy
value. -/
def amended_is_complete (fd : JDict) : Bool :=
  truthyOpt (dlookup "budget" fd) && truthyOpt (dlookup "typeOfHoliday" fd)
  && truthyOpt (dlookup "travelGroup" fd)
  && (match (dlookup "availability" fd).getD (JValue.obj []) with
      | JValue.obj a =>
        truthyOpt (dlookup "startDate" a) && truthyOpt (dlookup "endDate" a)
      | _ => false)
  && truthy ((dlookup "destinationPreferences" fd).getD (JValue.arr []))

/-- Does the `availability` entry of `fd`, when present, hold a dict?
(True of every state `extract_form_data` can return.) -/
def availOk (fd : JDict) : Bool :=
  match dlookup "availability" fd with
  | none => true
  | some (JValue.obj _) => true
  | some _ => false

/-! ### Theorems -/

theorem dlookup_replaceEntry_self {α : Type} (d : List (String × α)) (k : String)
    (v : α) (hk : keyIn k d = true) :
    dlookup k (replaceEntry k v d) = some v := by
  induction d with
  | nil => simp [keyIn, dlookup] at hk
  | cons p t ih =>
    obtain ⟨k1, v1⟩ := p
    by_cases h : k1 = k
    · simp [replaceEntry, h, dlookup]
    · have hk2 : keyIn k t = true := by simpa [keyIn, dlookup, h] using hk
      simp [replaceEntry, h, dlookup, ih hk2]

theorem dlookup_replaceEntry_ne {α : Type} (d : List (String × α)) (k2 k : String)
    (v : α) (h : k ≠ k2) :
    dlookup k (replaceEntry k2 v d) = dlookup k d := by
  induction d with
  | nil => simp [replaceEntry]
  | cons p t ih =>
    obtain ⟨k1, v1⟩ := p
    by_cases h1 : k1 = k2
    · have hne1 : ¬ k1 = k := fun hk => h (hk ▸ h1)
      have hne2 : ¬ k2 = k := fun hk => h hk.symm
      simp [replaceEntry, dlookup, h1, hne1, hne2, ih]
    · by_cases h2 : k1 = k
      · simp [replaceEntry, dlookup, h1, h2, h]
      · simp [replaceEntry, dlookup, h1, h2, ih]

theorem dlookup_append_single {α : Type} (d : List (String × α)) (k2 k : String)
    (v : α) :
    dlookup k (d ++ [(k2, v)])
      = match dlookup k d with
        | some w => some w
        | none => if k2 = k then some v else none := by
  induction d with
  | nil => simp [dlookup]
  | cons p t ih =>
    obtain ⟨k1, v1⟩ := p
    by_cases h : k1 = k
    · simp [dlookup, if_pos h]
    · simp only [List.cons_append, dlookup, if_neg h]
      exact ih

/-- Characterization of `dictSet` through `dlookup`. -/
theorem dlookup_dictSet {α : Type} (d : List (String × α)) (k2 k : String) (v : α) :
    dlookup k (dictSet d k2 v) = if k = k2 then some v else dlookup k d := by
  unfold dictSet
  by_cases hk : keyIn k2 d
  · rw [if_pos hk]
    by_cases h : k = k2
    · subst h
      rw [dlookup_replaceEntry_self d k v hk, if_pos rfl]
    · rw [dlookup_replaceEntry_ne d k2 k v h, if_neg h]
  · rw [if_neg hk, dlookup_append_single]
    by_cases h : k = k2
    · subst h
      have hnone : dlookup k d = none := by
        cases hd : dlookup k d with
        | none => rfl
        | some w => exact absurd (by simp [keyIn, hd]) hk
      rw [hnone, if_pos rfl]
    · have hne2 : ¬ k2 = k := fun hkk => h hkk.symm
      cases hd : dlookup k d with
      | none => simp [if_neg h, if_neg hne2]
      | some w => simp [if_neg h]

theorem keyIn_dictSet {α : Type} (d : List (String × α)) (k2 k : String) (v : α) :
    keyIn k (dictSet d k2 v) = (decide (k = k2) || keyIn k d) := by
  unfold keyIn
  rw [dlookup_dictSet]
  by_cases h : k = k2 <;> simp [h]

theorem route_logic_all_done (routes : List String) (results : StrDict)
    (h : ∀ r ∈ routes, keyIn r results = true) :
    route_logic routes results = "combine_results" := by
  induction routes with
  | nil => rfl
  | cons r rest ih =>
    have hr := h r (List.mem_cons_self r rest)
    simp only [route_logic, hr, if_pos]
    exact ih (fun x hx => h x (List.mem_cons_of_mem r hx))

theorem route_logic_first_missing (routes : List String) (results : StrDict)
    (h : ¬ ∀ r ∈ routes, keyIn r results = true) :
    route_logic routes results ∈ routes
      ∧ keyIn (route_logic routes results) results = false := by
  induction routes with
  | nil => exact absurd (fun r hr => absurd hr (List.not_mem_nil r)) h
  | cons r rest ih =>
    by_cases hr : keyIn r results
    · have hrest : ¬ ∀ x ∈ rest, keyIn x results = true := by
        intro hall
        exact h (fun x hx => by
          rcases List.mem_cons.mp hx with h1 | h2
          · rw [h1]; exact hr
          · exact hall x h2)
      have := ih hrest
      simp only [route_logic, hr, if_pos]
      exact ⟨List.mem_cons_of_mem r this.1, this.2⟩
    · have hred : route_logic (r :: rest) results = r := by simp [route_logic, hr]
      rw [hred]
      exact ⟨List.mem_cons_self r rest, by simpa using hr⟩

/-- C1: the Dispatch Loop decision function `route_logic` returns the
first capability name in `routes` (scanning in order) that is not yet a
key of `results`, and returns the `"combine_results"` (DONE/combine)
step when `routes` is empty or every name is already a key; it is a pure
function, so two calls with identical inputs return the identical
decision and mutate nothing. -/
theorem c1_route_logic_spec (routes : List String) (results : StrDict) :
    route_logic routes results
      = ((routes.find? (fun r => !keyIn r results)).getD "combine_results")
    ∧ ((∀ r ∈ routes, keyIn r results = true) →
        route_logic routes results = "combine_results")
    ∧ route_logic routes results = route_logic routes results := by
  refine ⟨?_, fun h => route_logic_all_done routes results h, rfl⟩
  induction routes with
  | nil => rfl
  | cons r rest ih =>
    by_cases hr : keyIn r results
    · rw [List.find?_cons_of_neg _ (by simp [hr])]
      simpa [route_logic, hr] using ih
    · rw [List.find?_cons_of_pos _ (by simp [hr])]
      simp [route_logic, hr]

/-- Witness for C1 at a concrete input. -/
theorem c1_witness :
    (∀ r ∈ ["weather"], keyIn r ([("weather", "done")] : StrDict) = true)
    ∧ route_logic ["weather"] [("weather", "done")] = "combine_results" :=
  ⟨by decide, (c1_route_logic_spec ["weather"] [("weather", "done")]).2.1 (by decide)⟩

/-- C2 evaluated at the failing input: `graph.py` never validates
`routes` against `AGENTS`, so for `routes = ["flight"]` (an agent file
that exists but is not registered) and empty `results`, `route_logic`
returns `"flight"`, which is not a registered node; no iteration of the
dispatch loop can ever reach the `"combine_results"` step, because the
unknown name can never be executed and so never gains a `results`
entry. -/
theorem c2_unknown_route_stuck :
    route_logic ["flight"] ([] : StrDict) = "flight"
    ∧ keyIn "flight" AGENTS = false
    ∧ ∀ n : Nat,
        route_logic ["flight"] (dispatch_iter (fun r => r) ["flight"] n [])
          ≠ "combine_results" := by
  refine ⟨rfl, by decide, ?_⟩
  intro n
  cases n with
  | zero => decide
  | succ m =>
    have hstep : dispatch_step (fun r => r) ["flight"] []
        = DispatchStep.invalidNode "flight" := by decide
    simp only [dispatch_iter, hstep]
    decide

theorem distinct_missing_dictSet (routes : List String) (results : StrDict)
    (d : String) (v : String) :
    distinct_missing routes (dictSet results d v)
      = (distinct_missing routes results).filter (fun r => !(r == d)) := by
  unfold distinct_missing
  rw [List.filter_filter]
  apply List.filter_congr
  intro r hr
  rw [keyIn_dictSet]
  by_cases h : r = d <;> simp [h]

theorem length_filter_ne_of_nodup (l : List String) (d : String)
    (hnd : l.Nodup) (hd : d ∈ l) :
    (l.filter (fun r => !(r == d))).length + 1 = l.length := by
  induction l with
  | nil => cases hd
  | cons a t ih =>
    by_cases h : a = d
    · subst h
      have hnotin : a ∉ t := (List.nodup_cons.mp hnd).1
      have hself : t.filter (fun r => !(r == a)) = t := by
        apply List.filter_eq_self.mpr
        intro x hx
        have hxa : x ≠ a := fun he => hnotin (he ▸ hx)
        simp [hxa]
      simp [List.filter_cons, hself]
    · have hd2 : d ∈ t := by
        rcases List.mem_cons.mp hd with h1 | h1
        · exact absurd h1.symm h
        · exact h1
      have ih2 := ih (List.nodup_cons.mp hnd).2 hd2
      simp only [List.filter_cons, show ((!(a == d)) = true) from by simp [h],
        if_pos, List.length_cons]
      omega

theorem dispatch_progress (exec : String → String) (routes : List String)
    (hv : ∀ r ∈ routes, keyIn r AGENTS = true) :
    ∀ n : Nat, ∀ results : StrDict,
      (distinct_missing routes results).length = n →
      route_logic routes (dispatch_iter exec routes n results) = "combine_results"
      ∧ ∀ m : Nat, m < n →
          route_logic routes (dispatch_iter exec routes m results)
            ≠ "combine_results" := by
  intro n
  induction n with
  | zero =>
    intro results hlen
    have hempty : distinct_missing routes results = [] :=
      List.length_eq_zero.mp hlen
    have hall : ∀ r ∈ routes, keyIn r results = true := by
      intro r hr
      by_contra hcon
      have hmem : r ∈ distinct_missing routes results := by
        unfold distinct_missing
        exact List.mem_filter.mpr ⟨List.mem_dedup.mpr hr, by simpa using hcon⟩
      rw [hempty] at hmem
      cases hmem
    exact ⟨route_logic_all_done routes results hall,
      fun m hm => absurd hm (Nat.not_lt_zero m)⟩
  | succ k ih =>
    intro results hlen
    have hnotall : ¬ ∀ r ∈ routes, keyIn r results = true := by
      intro hall
      have : distinct_missing routes results = [] := by
        unfold distinct_missing
        apply List.filter_eq_nil_iff.mpr
        intro a ha
        simp [hall a (List.mem_dedup.mp ha)]
      rw [this] at hlen
      simp at hlen
    obtain ⟨hmem, hmiss⟩ := route_logic_first_missing routes results hnotall
    set d := route_logic routes results with hdef
    have hagent : keyIn d AGENTS = true := hv d hmem
    have hdne : d ≠ "combine_results" := fun hcon => by
      rw [hcon] at hagent
      exact absurd hagent (by decide)
    have hstep : dispatch_step exec routes results
        = DispatchStep.ran (dictSet results d (exec d)) := by
      unfold dispatch_step
      rw [← hdef, if_neg hdne, if_pos hagent]
    have hlen2 :
        (distinct_missing routes (dictSet results d (exec d))).length = k := by
      rw [distinct_missing_dictSet]
      have hdm : d ∈ distinct_missing routes results := by
        unfold distinct_missing
        exact List.mem_filter.mpr ⟨List.mem_dedup.mpr hmem, by simp [hmiss]⟩
      have hnd : (distinct_missing routes results).Nodup :=
        (List.nodup_dedup routes).filter _
      have := length_filter_ne_of_nodup _ d hnd hdm
      omega
    obtain ⟨ih1, ih2⟩ := ih (dictSet results d (exec d)) hlen2
    have hiter : ∀ j : Nat, dispatch_iter exec routes (j + 1) results
        = dispatch_iter exec routes j (dictSet results d (exec d)) := by
      intro j
      simp [dispatch_iter, hstep]
    constructor
    · rw [hiter k]
      exact ih1
    · intro m hm
      cases m with
      | zero => exact hdef ▸ hdne
      | succ m2 =>
        rw [hiter m2]
        exact ih2 m2 (Nat.lt_of_succ_lt_succ hm)

/-- C3: for a `routes` list containing only valid capability names,
iterating the dispatch step from empty results reaches the combine step
in exactly `len(set(routes))` (= `routes.dedup.length`) execution steps
and in no fewer, for every content `exec` of the recorded results;
duplicates collapse because the first execution populates `results` and
later occurrences are skipped. -/
theorem c3_progress_exact_steps (exec : String → String) (routes : List String)
    (hv : ∀ r ∈ routes, keyIn r AGENTS = true) :
    route_logic routes (dispatch_iter exec routes routes.dedup.length [])
      = "combine_results"
    ∧ ∀ m : Nat, m < routes.dedup.length →
        route_logic routes (dispatch_iter exec routes m []) ≠ "combine_results" := by
  have hlen : (distinct_missing routes ([] : StrDict)).length
      = routes.dedup.length := by
    unfold distinct_missing
    rw [List.filter_eq_self.mpr]
    intro a ha
    simp [keyIn, dlookup]
  exact dispatch_progress exec routes hv routes.dedup.length [] hlen

/-- Witness for C3: a routes list with a duplicate terminates in exactly
two steps. -/
theorem c3_witness :
    (∀ r ∈ ["weather", "exchange", "weather"], keyIn r AGENTS = true)
    ∧ route_logic ["weather", "exchange", "weather"]
        (dispatch_iter (fun r => r) ["weather", "exchange", "weather"]
          (["weather", "exchange", "weather"] : List String).dedup.length [])
      = "combine_results" :=
  ⟨by decide,
    (c3_progress_exact_steps (fun r => r) ["weather", "exchange", "weather"]
      (by decide)).1⟩

/-- C5 counterexample: on empty `results` the Combiner does not
short-circuit — it still issues one completion call (call count 1, not
0), and its output is the model reply to the fixed text, not the fixed
text itself. -/
theorem c5_counterexample :
    (combine_results (fun s => String.append "Paraphrased: " s) []).2 = 1
    ∧ (combine_results (fun s => String.append "Paraphrased: " s) []).1
        ≠ "No relevant information found." :=
  ⟨rfl, by decide⟩

/-- C5 amended: the Combiner always issues exactly one completion call;
when `results` is empty the call input is the fixed no-information text,
otherwise it is the values joined with a blank-line separator in
insertion (execution) order; the final response is the call output. -/
theorem c5_combiner_always_one_call (llm : String → String) (results : StrDict) :
    (combine_results llm results).2 = 1
    ∧ (results = [] →
        (combine_results llm results).1 = llm "No relevant information found.")
    ∧ (results ≠ [] →
        (combine_results llm results).1
          = llm (String.intercalate "\n\n" (dictValues results))) := by
  refine ⟨rfl, fun h => by subst h; rfl, fun h => ?_⟩
  unfold combine_results
  have hne : (dictValues results).isEmpty = false := by
    cases results with
    | nil => exact absurd rfl h
    | cons p t => rfl
  simp [hne]

/-- Witness for the amended C5 at a concrete non-empty input. -/
theorem c5_witness :
    ([("weather", "Sunny in Paris.")] : StrDict) ≠ []
    ∧ (combine_results (fun s => s) [("weather", "Sunny in Paris.")]).1
        = "Sunny in Paris." := by
  refine ⟨by decide, ?_⟩
  have h := (c5_combiner_always_one_call (fun s => s)
    [("weather", "Sunny in Paris.")]).2.2 (by decide)
  rw [h]
  rfl

/-- C10: each capability runner node writes exactly one entry of the
`results` mapping — the key equal to its own capability name — and
leaves every other existing `results` entry, the `routes` list and the
previously appended `messages` unchanged (stated for a state with at
least one message and a normally returning agent). -/
theorem c10_runner_frame (state : RouterState) (m : Msg)
    (wAgent eAgent : String → Except String String)
    (fAgent : String → Except String (List (String × String)))
    (v : String) (fd : List (String × String))
    (hm : state.messages.getLast? = some m)
    (hw : wAgent m.content = Except.ok v)
    (he : eAgent m.content = Except.ok v)
    (hf : fAgent m.content = Except.ok fd) :
    (∃ st2, run_weather wAgent state = Except.ok st2
      ∧ st2.messages = state.messages ∧ st2.routes = state.routes
      ∧ dlookup "weather" st2.results = some v
      ∧ ∀ k, k ≠ "weather" → dlookup k st2.results = dlookup k state.results)
    ∧ (∃ st2, run_exchange eAgent state = Except.ok st2
      ∧ st2.messages = state.messages ∧ st2.routes = state.routes
      ∧ dlookup "exchange" st2.results = some v
      ∧ ∀ k, k ≠ "exchange" → dlookup k st2.results = dlookup k state.results)
    ∧ (∃ st2, run_form fAgent state = Except.ok st2
      ∧ st2.messages = state.messages ∧ st2.routes = state.routes
      ∧ dlookup "form" st2.results = some ((dlookup "response" fd).getD "")
      ∧ ∀ k, k ≠ "form" → dlookup k st2.results = dlookup k state.results) := by
  refine ⟨?_, ?_, ?_⟩
  · refine ⟨{ state with results := dictSet state.results "weather" v },
      ?_, rfl, rfl, ?_, ?_⟩
    · simp [run_weather, hm, hw]
    · rw [dlookup_dictSet]; simp
    · intro k hk; rw [dlookup_dictSet]; simp [hk]
  · refine ⟨{ state with results := dictSet state.results "exchange" v },
      ?_, rfl, rfl, ?_, ?_⟩
    · simp [run_exchange, hm, he]
    · rw [dlookup_dictSet]; simp
    · intro k hk; rw [dlookup_dictSet]; simp [hk]
  · refine ⟨{ state with
        results := dictSet state.results "form" ((dlookup "response" fd).getD "") },
      ?_, rfl, rfl, ?_, ?_⟩
    · simp [run_form, hm, hf]
    · rw [dlookup_dictSet]; simp
    · intro k hk; rw [dlookup_dictSet]; simp [hk]

/-- Witness for C10 at a concrete state: the weather runner records its
own entry and keeps an existing exchange entry. -/
theorem c10_witness :
    ∃ st2, run_weather (fun _ => Except.ok "sunny")
        ⟨[⟨Role.human, "weather in Paris"⟩], ["weather"], [("exchange", "kept")]⟩
      = Except.ok st2
    ∧ st2.messages = [⟨Role.human, "weather in Paris"⟩]
    ∧ st2.routes = ["weather"]
    ∧ dlookup "weather" st2.results = some "sunny"
    ∧ ∀ k, k ≠ "weather" →
        dlookup k st2.results = dlookup k ([("exchange", "kept")] : StrDict) :=
  (c10_runner_frame
    ⟨[⟨Role.human, "weather in Paris"⟩], ["weather"], [("exchange", "kept")]⟩
    ⟨Role.human, "weather in Paris"⟩
    (fun _ => Except.ok "sunny") (fun _ => Except.ok "sunny")
    (fun _ => Except.ok []) "sunny" [] rfl rfl rfl rfl).1

/-- C6 counterexample: a capability failure outside the tool boundary —
the agent invocation inside `run_weather` raising (for example a
completion-service connection error) — propagates as an exception to the
Dispatch Loop; no error string is recorded for `"weather"` and the
dispatch scan cannot advance past it. -/
theorem c6_counterexample :
    run_weather (fun _ => Except.error "APIConnectionError")
      ⟨[⟨Role.human, "weather in Paris tomorrow"⟩], ["weather"], []⟩
      = Except.error "APIConnectionError" := rfl

/-- C6 amended: failures inside the weather tool boundary — an
unparseable date phrase, a raised geocoding request, a missing location,
missing forecast data — are converted into human-readable strings
returned as the tool result (and hence recorded in `results`); but an
exception raised by the capability runner's agent invocation itself
propagates uncaught to the Dispatch Loop. -/
theorem c6_tool_boundary_capture
    (w1 w2 w3 w4 : WeatherWorld) (today t : Nat) (city date e v : String)
    (lat lon : Int) (st : RouterState) (m : Msg)
    (agent : String → Except String String)
    (hd1 : parseWeatherDate w1.dateutilParse today (py_strip_lower date)
      = DateParse.invalid)
    (hd2 : parseWeatherDate w2.dateutilParse today (py_strip_lower date)
      = DateParse.target t)
    (hg2 : w2.geoFetch city = Except.error e)
    (hd3 : parseWeatherDate w3.dateutilParse today (py_strip_lower date)
      = DateParse.target t)
    (hg3 : w3.geoFetch city = Except.ok none)
    (hd4 : parseWeatherDate w4.dateutilParse today (py_strip_lower date)
      = DateParse.target t)
    (hg4 : w4.geoFetch city = Except.ok (some [(lat, lon)]))
    (hf4 : w4.forecastFetch lat lon (w4.dayStr t) = Except.ok none)
    (hm : st.messages.getLast? = some m)
    (ha : agent m.content = Except.error v) :
    get_weather w1 today city date
      = "Please provide a valid date or phrase like 'tomorrow' or 'next Monday'."
    ∧ get_weather w2 today city date = "Could not fetch weather: " ++ e
    ∧ get_weather w3 today city date
      = "Could not find location for city '" ++ city ++ "'."
    ∧ get_weather w4 today city date
      = "No forecast data available for " ++ city ++ " on " ++ w4.dayStr t ++ "."
    ∧ run_weather agent st = Except.error v := by
  refine ⟨?_, ?_, ?_, ?_, ?_⟩
  · simp [get_weather, get_weather_body, hd1]
  · simp [get_weather, get_weather_body, hd2, hg2]
  · simp [get_weather, get_weather_body, hd3, hg3]
  · simp [get_weather, get_weather_body, hd4, hg4, hf4]
  · simp [run_weather, hm, ha]

/-- Witness for the amended C6 at concrete worlds and a concrete
state. -/
theorem c6_witness :
    get_weather weatherWorldGeoRaise 0 "Paris" "blargh"
      = "Could not fetch weather: ConnectionError"
    ∧ run_weather (fun _ => Except.error "APITimeoutError")
        ⟨[⟨Role.human, "hi"⟩], ["weather"], []⟩
      = Except.error "APITimeoutError" := by
  have h := c6_tool_boundary_capture weatherWorldBadDate weatherWorldGeoRaise
    weatherWorldNoHit weatherWorldNoForecast 0 5 "Paris" "blargh"
    "ConnectionError" "APITimeoutError" 10 20
    ⟨[⟨Role.human, "hi"⟩], ["weather"], []⟩ ⟨Role.human, "hi"⟩
    (fun _ => Except.error "APITimeoutError")
    rfl rfl rfl rfl rfl rfl rfl rfl rfl rfl
  exact ⟨h.2.1, h.2.2.2.2⟩

theorem dlookup_objUpdate_not_mem (a u : JDict) (k : String)
    (hk : keyIn k u = false) :
    dlookup k (objUpdate a u) = dlookup k a := by
  induction u generalizing a with
  | nil => rfl
  | cons kv rest ih =>
    obtain ⟨k2, v2⟩ := kv
    have h1 : ¬ k2 = k := by
      intro he
      subst he
      simp [keyIn, dlookup] at hk
    have h2 : keyIn k rest = false := by
      simpa [keyIn, dlookup, h1] using hk
    have hstep : objUpdate a ((k2, v2) :: rest) = objUpdate (dictSet a k2 v2) rest := rfl
    rw [hstep, ih (dictSet a k2 v2) h2, dlookup_dictSet,
      if_neg (fun he => h1 he.symm)]

theorem truthy_not_empty_list (v : JValue) (h : truthy v = true) :
    (isArrB v && decide (arrLen v = 0)) = false := by
  cases v with
  | arr xs =>
    cases xs with
    | nil => simp [truthy] at h
    | cons x t => simp [isArrB, arrLen]
  | null => simp [isArrB]
  | bool b => simp [isArrB]
  | num n => simp [isArrB]
  | str s => simp [isArrB]
  | obj fs => simp [isArrB]

/-- C7: the per-key merge policy of `extract_form_data` — the date-range
field `availability` (with a dict value) is shallow-merged into the
existing nested object (created fresh when absent), preserving
previously set sub-keys not present in the new extraction; the
list-valued field `destinationPreferences` (with a list value) is
overwritten entirely; every other key is set only when the new value is
truthy, so a populated scalar is never overwritten with an empty value;
and merging an empty extraction leaves `fields` unchanged. -/
theorem c7_merge_policy (current current2 : JDict) (a u : JDict)
    (xs : List JValue) (k : String) (v w : JValue)
    (ha : dlookup "availability" current = some (JValue.obj a))
    (ha2 : dlookup "availability" current2 = none)
    (hk1 : k ≠ "availability") (hk2 : k ≠ "destinationPreferences")
    (hv : truthy v = true) (hw : truthy w = false) :
    mergeItems current [] = (current, false)
    ∧ (mergeItems current [("availability", JValue.obj u)]).1
        = dictSet current "availability" (JValue.obj (objUpdate a u))
    ∧ (∀ k2, keyIn k2 u = false → dlookup k2 (objUpdate a u) = dlookup k2 a)
    ∧ (mergeItems current2 [("availability", JValue.obj u)]).1
        = dictSet current2 "availability" (JValue.obj (objUpdate [] u))
    ∧ (mergeItems current [("destinationPreferences", JValue.arr xs)]).1
        = dictSet current "destinationPreferences" (JValue.arr xs)
    ∧ (mergeItems current [(k, v)]).1 = dictSet current k v
    ∧ (mergeItems current [(k, w)]).1 = current := by
  refine ⟨rfl, ?_, ?_, ?_, ?_, ?_, ?_⟩
  · simp [mergeItems, mergeOne, ha]
  · intro k2 hk
    exact dlookup_objUpdate_not_mem a u k2 hk
  · simp [mergeItems, mergeOne, ha2]
  · simp [mergeItems, mergeOne]
  · simp [mergeItems, mergeOne, hk1, hk2, hv]
  · simp [mergeItems, mergeOne, hk1, hk2, hw]

/-- Witness for C7: merging a new `endDate` into an `availability` that
already holds a `startDate` keeps the `startDate`. -/
theorem c7_witness :
    (mergeItems
        [("availability", JValue.obj [("startDate", JValue.str "2025-06-01")]),
         ("budget", JValue.num 3000)]
        [("availability", JValue.obj [("endDate", JValue.str "2025-06-15")])]).1
      = dictSet
          [("availability", JValue.obj [("startDate", JValue.str "2025-06-01")]),
           ("budget", JValue.num 3000)]
          "availability"
          (JValue.obj (objUpdate [("startDate", JValue.str "2025-06-01")]
            [("endDate", JValue.str "2025-06-15")]))
    ∧ ∀ k2, keyIn k2 [("endDate", JValue.str "2025-06-15")] = false →
        dlookup k2 (objUpdate [("startDate", JValue.str "2025-06-01")]
            [("endDate", JValue.str "2025-06-15")])
          = dlookup k2 [("startDate", JValue.str "2025-06-01")] := by
  have h := c7_merge_policy
    [("availability", JValue.obj [("startDate", JValue.str "2025-06-01")]),
     ("budget", JValue.num 3000)]
    [("budget", JValue.num 3000)]
    [("startDate", JValue.str "2025-06-01")]
    [("endDate", JValue.str "2025-06-15")]
    [JValue.str "Bali"] "budget" (JValue.num 3000) (JValue.str "")
    rfl rfl (by decide) (by decide) rfl rfl
  exact ⟨h.2.1, h.2.2.1⟩

/-- C8 counterexample: on fields whose `destinationPreferences` holds the
truthy non-list value `"Bali"`, `is_form_complete` returns `True`
although the list-valued field is not a non-empty list — the stated
if-and-only-if characterization fails. -/
theorem c8_counterexample :
    is_form_complete fieldsDestStr = Except.ok true
    ∧ claim_is_complete fieldsDestStr = false := ⟨rfl, rfl⟩

/-- C8 amended: `is_form_complete` returns `True` exactly when the three
scalar fields are truthy, the `availability` value (default empty dict)
is a dict with truthy `startDate` and `endDate`, and the
`destinationPreferences` value (default `[]`) is truthy — a non-empty
list, or any other truthy value; in particular the spec's two boundary
scenarios hold. -/
theorem c8_completeness_characterization (fd : JDict) :
    is_form_complete fd = Except.ok true ↔ amended_is_complete fd = true := by
  unfold is_form_complete amended_is_complete
  cases hb : truthyOpt (dlookup "budget" fd) with
  | false => simp [hb]
  | true =>
    cases ht : truthyOpt (dlookup "typeOfHoliday" fd) with
    | false => simp [hb, ht]
    | true =>
      cases hg : truthyOpt (dlookup "travelGroup" fd) with
      | false => simp [hb, ht, hg]
      | true =>
        simp only [hb, ht, hg, Bool.not_true, Bool.false_eq_true, if_false,
          Bool.true_and]
        cases hav : (dlookup "availability" fd).getD (JValue.obj []) with
        | obj avf =>
          cases hsd : truthyOpt (dlookup "startDate" avf) with
          | false => simp [pyGet, hsd]
          | true =>
            cases hed : truthyOpt (dlookup "endDate" avf) with
            | false => simp [pyGet, hsd, hed]
            | true =>
              cases hds : truthy
                  ((dlookup "destinationPreferences" fd).getD (JValue.arr [])) with
              | false => simp [pyGet, hsd, hed, hds]
              | true =>
                have hne := truthy_not_empty_list _ hds
                simp [pyGet, hsd, hed, hds, hne]
        | null => simp [pyGet]
        | bool b => simp [pyGet]
        | num n => simp [pyGet]
        | str s => simp [pyGet]
        | arr xs => simp [pyGet]

theorem computeCompleted_isOk (fd : JDict) (h : availOk fd = true) :
    (computeCompleted fd).isOk = true := by
  unfold availOk at h
  unfold computeCompleted
  cases hav : dlookup "availability" fd with
  | none => simp [hav, pyGet, Except.isOk, Except.toBool]
  | some v =>
    rw [hav] at h
    cases v with
    | obj fs => simp [hav, pyGet, Except.isOk, Except.toBool]
    | null => simp at h
    | bool b => simp at h
    | num n => simp at h
    | str s => simp at h
    | arr xs => simp at h

/-- C9 counterexample: when the current fields hold a non-dict
`availability` value (reachable through a turn that merged a truthy
non-dict extraction for it), the completed-fields recomputation — which
runs outside the `try` — raises `AttributeError` to the caller even for
a reply with no brace-delimited blob at all; the extract phase is not
exception-free for every reply. -/
theorem c9_counterexample :
    findJsonBlob "Sorry, I could not find any information." = none
    ∧ extract_form_data (fun _ => none)
        "Sorry, I could not find any information."
        ⟨[⟨Role.human, "hi"⟩, ⟨Role.ai, "welcome"⟩, ⟨Role.human, "nothing"⟩],
         [("availability", JValue.str "summer")], []⟩
      = Except.error "AttributeError" := ⟨rfl, rfl⟩

/-- C9 amended: provided every `availability` entry of the current
fields is a dict (true of every state the extract phase itself can
return), a reply with no brace-delimited blob, or whose blob fails to
parse, or whose parsed value is not a mapping, leaves `form_data`
unchanged and raises nothing; with a non-dict `availability` value the
turn instead raises `AttributeError` regardless of the reply. -/
theorem c9_parse_failure_noop (parse : String → Option JValue) (llmReply : String)
    (st : FormState) (hwf : availOk st.form_data = true)
    (hfail : findJsonBlob llmReply = none
      ∨ (∃ b, findJsonBlob llmReply = some b ∧ parse b = none)
      ∨ (∃ b v, findJsonBlob llmReply = some b ∧ parse b = some v
          ∧ isObjB v = false)) :
    ∃ st2, extract_form_data parse llmReply st = Except.ok st2
      ∧ st2.form_data = st.form_data ∧ st2.messages = st.messages := by
  have hmerged : (match findJsonBlob llmReply with
      | none => st.form_data
      | some blob =>
        match parse blob with
        | none => st.form_data
        | some (JValue.obj items) => (mergeItems st.form_data items).1
        | some _ => st.form_data) = st.form_data := by
    rcases hfail with h | ⟨b, hb, hp⟩ | ⟨b, v, hb, hp, hv⟩
    · rw [h]
    · simp only [hb, hp]
    · simp only [hb, hp]
      cases v with
      | obj fs => simp [isObjB] at hv
      | null => rfl
      | bool b2 => rfl
      | num n => rfl
      | str s => rfl
      | arr xs => rfl
  unfold extract_form_data
  by_cases hlen : st.messages.length < 2
  · rw [if_pos hlen]
    exact ⟨st, rfl, rfl, rfl⟩
  · rw [if_neg hlen]
    cases hlh : lastHumanMessage st.messages with
    | none => exact ⟨st, rfl, rfl, rfl⟩
    | some msg =>
      simp only [hmerged]
      cases hcc : computeCompleted st.form_data with
      | error e =>
        have hok := computeCompleted_isOk st.form_data hwf
        rw [hcc] at hok
        simp [Except.isOk, Except.toBool] at hok
      | ok c =>
        exact ⟨{ st with form_data := st.form_data, completed_fields := c },
          rfl, rfl, rfl⟩

/-- Witness for the amended C9 at a concrete clean state and a reply
with no braces. -/
theorem c9_witness :
    availOk ([("budget", JValue.num 3000)] : JDict) = true
    ∧ ∃ st2, extract_form_data (fun _ => none) "no info found"
        ⟨[⟨Role.human, "a"⟩, ⟨Role.ai, "b"⟩], [("budget", JValue.num 3000)], []⟩
        = Except.ok st2
      ∧ st2.form_data = [("budget", JValue.num 3000)]
      ∧ st2.messages = [⟨Role.human, "a"⟩, ⟨Role.ai, "b"⟩] :=
  ⟨rfl, c9_parse_failure_noop (fun _ => none) "no info found"
    ⟨[⟨Role.human, "a"⟩, ⟨Role.ai, "b"⟩], [("budget", JValue.num 3000)], []⟩
    rfl (Or.inl rfl)⟩

/-- C4 counterexample: a turn on which, after the extract phase, the
completeness predicate holds — the compiled form graph routes
`extract_and_ask → END` (`should_continue`), so `llm_call` never runs
and no thank-you (and no message at all) is emitted; the turn does not
issue the completion call the claim describes. -/
theorem c4_counterexample :
    is_form_complete completeFields = Except.ok true
    ∧ formTurn (fun _ => none) "reply" "THANKS" "QUESTION"
        ⟨[⟨Role.human, "hi"⟩], completeFields, []⟩
      = Except.ok ⟨[⟨Role.human, "hi"⟩], completeFields, []⟩ := ⟨rfl, rfl⟩

/-- C4 amended: on every turn where, after the extract phase, the
completeness predicate holds, the form graph ends the turn emitting no
message (the thank branch of `llm_call` is unreachable through the
graph); on every turn where it does not hold, exactly one clarifying
question is emitted. -/
theorem c4_turn_emission (parse : String → Option JValue)
    (llmReply thankReply questionReply : String) (st st1 : FormState)
    (h1 : extract_form_data parse llmReply st = Except.ok st1) :
    (is_form_complete st1.form_data = Except.ok true →
      formTurn parse llmReply thankReply questionReply st = Except.ok st1)
    ∧ (is_form_complete st1.form_data = Except.ok false →
      formTurn parse llmReply thankReply questionReply st
        = Except.ok { st1 with
            messages := st1.messages ++ [⟨Role.ai, questionReply⟩] }) := by
  constructor
  · intro hc
    simp only [formTurn, h1, should_continue, hc]
    simp
  · intro hc
    simp only [formTurn, h1, should_continue, llm_call, hc]
    simp

/-- Witness for the amended C4: the complete-fields turn ends with no
emitted message. -/
theorem c4_witness :
    formTurn (fun _ => none) "reply" "THANKS" "QUESTION"
        ⟨[⟨Role.human, "hi"⟩], completeFields, []⟩
      = Except.ok ⟨[⟨Role.human, "hi"⟩], completeFields, []⟩ :=
  (c4_turn_emission (fun _ => none) "reply" "THANKS" "QUESTION"
    ⟨[⟨Role.human, "hi"⟩], completeFields, []⟩
    ⟨[⟨Role.human, "hi"⟩], completeFields, []⟩ rfl).1 rfl
